import Mathlib

/-!
Verification development for the petrophysical analysis backend
(`backend/app/routes/analysis.py`, `backend/app/routes/reports.py`,
`backend/app/models/petrophysics.py`).

The Python floats are modelled as real numbers (`ℝ`), nullable fields as
`Option ℝ`, and the fallible `calculate_petrophysics` route as a function
returning `Except`.  Python truthiness on floats (`if x:` treating both
`None` and `0.0` as false) is modelled explicitly wherever the source
relies on it.  The per-well log store is a list of rows; the persisted
zone store is a list of `Petrophysics` records that grows only on a
successful computation.
-/

noncomputable section

open Classical

/-- numpy `np.clip(x, lo, hi)` = `minimum(maximum(x, lo), hi)`. -/
def clip (x lo hi : ℝ) : ℝ := min (max x lo) hi

/-- numpy `np.mean` of a list of values (only ever applied to nonempty lists
in the pipeline, mirroring the guards in the source). -/
def mean (l : List ℝ) : ℝ := l.sum / l.length

/-- One row of the `well_logs` table restricted to the columns the
analysis pipeline reads (`log_type`, `depth`, `value`); the store passed
around below is already filtered to a single well. -/
structure WellLogEntry where
  log_type : String
  depth : ℝ
  value : ℝ

/-- The `Petrophysics` model (`models/petrophysics.py`), restricted to the
columns written by `calculate_petrophysics` and read by the reports:
nullable float columns are `Option ℝ`. -/
structure Petrophysics where
  depth_from : ℝ
  depth_to : ℝ
  porosity : Option ℝ
  porosity_effective : Option ℝ
  saturation_water : Option ℝ
  saturation_oil : Option ℝ
  vshale : Option ℝ
  zone_type : String
  calculated_by : String

/-- Request body of `POST /well/<id>/calculate`: the two depth bounds may be
absent from the JSON (`data.get` returns `None`), the four calibration
constants default as in the source (lines 49-52 of `analysis.py`). -/
structure CalcRequest where
  depth_from : Option ℝ
  depth_to : Option ℝ
  gr_clean : ℝ := 20
  gr_shale : ℝ := 120
  rho_matrix : ℝ := 2.65
  rho_fluid : ℝ := 1

/-- The two error returns of `calculate_petrophysics`:
`missingDepth` is the 400 "depth_from et depth_to sont requis" response,
`missingGR` the 400 "Log GR requis pour le calcul" response. -/
inductive CalcError where
  | missingDepth
  | missingGR
deriving DecidableEq

/-- Insertion step of the depth sort used by `order_by(WellLog.depth)`. -/
def insertByDepth (e : WellLogEntry) : List WellLogEntry → List WellLogEntry
  | [] => [e]
  | x :: xs => if e.depth ≤ x.depth then e :: x :: xs else x :: insertByDepth e xs

/-- Sort log rows by ascending depth (`order_by(WellLog.depth)`). -/
def sortByDepth : List WellLogEntry → List WellLogEntry
  | [] => []
  | x :: xs => insertByDepth x (sortByDepth xs)

/-- The query filter of lines 57-60 of `analysis.py`: rows of one curve type
whose depth lies in the closed interval `[dfrom, dto]`. -/
def selectCurve (t : String) (dfrom dto : ℝ) : List WellLogEntry → List WellLogEntry
  | [] => []
  | e :: rest =>
      if e.log_type = t ∧ dfrom ≤ e.depth ∧ e.depth ≤ dto then
        e :: selectCurve t dfrom dto rest
      else
        selectCurve t dfrom dto rest

/-- Values of curve `t` over the interval, in ascending depth order
(the values list the route stores under the curve key in `logs`). -/
def curveValues (store : List WellLogEntry) (t : String) (dfrom dto : ℝ) : List ℝ :=
  (sortByDepth (selectCurve t dfrom dto store)).map (fun e => e.value)

/-- Lines 71-78 of `analysis.py`: per-sample Gamma-Ray index
`igr = clip((g - gr_clean)/(gr_shale - gr_clean), 0, 1)`, Larionov
`vshale = clip(0.33*(2^(2*igr) - 1), 0, 1)`, reduced by the mean.
The float power `2**x` is the real power. -/
def vshaleMean (grVals : List ℝ) (grClean grShale : ℝ) : ℝ :=
  mean (grVals.map (fun g =>
    clip (0.33 * ((2:ℝ) ^ (2 * clip ((g - grClean) / (grShale - grClean)) 0 1) - 1)) 0 1))

/-- Lines 83-87: density porosity `clip((rho_matrix - rho)/(rho_matrix -
rho_fluid), 0, 0.5)` per sample, reduced by the mean. -/
def densPorosity (densVals : List ℝ) (rhoMatrix rhoFluid : ℝ) : ℝ :=
  mean (densVals.map (fun rho => clip ((rhoMatrix - rho) / (rhoMatrix - rhoFluid)) 0 0.5))

/-- Lines 97-108: simplified Archie, with a=1.0, rw=0.1, m=2.0, n=2.0:
`sw_n = (a*rw)/(pe**m * rt_mean)` and `min(1.0, sw_n**(1/n))`;
the float powers are real powers. -/
def archieSw (pe rtMean : ℝ) : ℝ :=
  min 1 ((((1:ℝ) * 0.1) / (pe ^ (2:ℝ) * rtMean)) ^ ((1:ℝ) / (2:ℝ)))

/-- Lines 95-108: `saturation_water` stays `None` unless RESIS samples are
present and `porosity_effective` is truthy (`None` and `0.0` both fail the
RESIS-in-logs and porosity_effective test), and additionally
`porosity_effective > 0 and rt_mean > 0`. -/
def swCalc (pe : Option ℝ) (resisVals : List ℝ) : Option ℝ :=
  match pe with
  | none => none
  | some pev =>
      if resisVals ≠ [] ∧ pev ≠ 0 then
        if pev > 0 ∧ mean resisVals > 0 then some (archieSw pev (mean resisVals)) else none
      else none

/-- Line 126: `saturation_oil = 1 - saturation_water if saturation_water
else None` — Python truthiness, so a present-but-zero Sw also yields None. -/
def soOf : Option ℝ → Option ℝ
  | some s => if s ≠ 0 then some (1 - s) else none
  | none => none

/-- Lines 110-116: the zone classifier exactly as coded: start from
shale; when `vshale_mean < 0.3`, test `saturation_water and
saturation_water < 0.5` (truthiness: `None` and `0.0` both falsy). -/
def classifyZone (vm : ℝ) (sw : Option ℝ) : String :=
  if vm < 0.3 then
    match sw with
    | some s => if s ≠ 0 ∧ s < 0.5 then "reservoir" else "water_bearing"
    | none => "water_bearing"
  else "shale"

/-- Lines 81-87: `porosity` is computed only when DENS samples exist in the
interval (the route only adds a curve to `logs` when its row list is
nonempty, line 61). -/
def porosityOpt (store : List WellLogEntry) (q : CalcRequest) (dfrom dto : ℝ) : Option ℝ :=
  if curveValues store "DENS" dfrom dto = [] then none
  else some (densPorosity (curveValues store "DENS" dfrom dto) q.rho_matrix q.rho_fluid)

/-- Lines 89-92: `porosity_effective = porosity * (1 - vshale_mean)` when
porosity was computed, else None. -/
def peOpt (store : List WellLogEntry) (q : CalcRequest) (dfrom dto : ℝ) : Option ℝ :=
  (porosityOpt store q dfrom dto).map
    (fun p => p * (1 - vshaleMean (curveValues store "GR" dfrom dto) q.gr_clean q.gr_shale))

/-- Lines 94-108 assembled: the stored `saturation_water`. -/
def swOpt (store : List WellLogEntry) (q : CalcRequest) (dfrom dto : ℝ) : Option ℝ :=
  swCalc (peOpt store q dfrom dto) (curveValues store "RESIS" dfrom dto)

/-- Lines 119-130: the `Petrophysics` record built on the success path. -/
def mkRecord (store : List WellLogEntry) (q : CalcRequest) (dfrom dto : ℝ) : Petrophysics :=
  { depth_from := dfrom
    depth_to := dto
    porosity := porosityOpt store q dfrom dto
    porosity_effective := peOpt store q dfrom dto
    saturation_water := swOpt store q dfrom dto
    saturation_oil := soOf (swOpt store q dfrom dto)
    vshale := some (vshaleMean (curveValues store "GR" dfrom dto) q.gr_clean q.gr_shale)
    zone_type := classifyZone
      (vshaleMean (curveValues store "GR" dfrom dto) q.gr_clean q.gr_shale)
      (swOpt store q dfrom dto)
    calculated_by := "auto" }

/-- Lines 54-68 then 70-130: after the depth check, extract curves; fail
with the 400 "Log GR requis" error iff no GR rows lie in the interval;
otherwise always succeed with the computed record. -/
def calcBody (store : List WellLogEntry) (q : CalcRequest) (dfrom dto : ℝ) :
    Except CalcError Petrophysics :=
  if curveValues store "GR" dfrom dto = [] then .error .missingGR
  else .ok (mkRecord store q dfrom dto)

/-- Route `calculate_petrophysics` (analysis.py lines 40-133) minus the
authentication/well-lookup plumbing: the depth-bound check of line 45 is
Python truthiness (`if not depth_from or not depth_to`), so an absent
bound and a bound equal to 0 are both rejected with the 400 response. -/
def calculate (store : List WellLogEntry) (q : CalcRequest) : Except CalcError Petrophysics :=
  match q.depth_from, q.depth_to with
  | some dfrom, some dto =>
      if dfrom = 0 ∨ dto = 0 then .error .missingDepth
      else calcBody store q dfrom dto
  | some _, none => .error .missingDepth
  | none, _ => .error .missingDepth

/-- Persistence wrapper: `db.session.add(petro); db.session.commit()` runs
only on the success path (lines 132-133); on either 400 return the zone
store is untouched. -/
def calculateAndStore (zones : List Petrophysics) (store : List WellLogEntry)
    (q : CalcRequest) : List Petrophysics × Except CalcError Petrophysics :=
  match calculate store q with
  | .ok r => (zones ++ [r], .ok r)
  | .error e => (zones, .error e)

/-- Property `Petrophysics.is_reservoir` (models/petrophysics.py lines 92-102):
`if self.porosity and self.vshale and self.saturation_water:` is Python
truthiness — a present-but-zero value fails the guard — then the three
threshold tests. -/
def Petrophysics.is_reservoir (z : Petrophysics) : Prop :=
  match z.porosity, z.vshale, z.saturation_water with
  | some p, some v, some s =>
      p ≠ 0 ∧ v ≠ 0 ∧ s ≠ 0 ∧ (p > 0.10 ∧ v < 0.40 ∧ s < 0.60)
  | _, _, _ => False

/-- Comprehension over zones keeping zone_type reservoir (reports.py
lines 80 and 206). -/
def reservoirZones (zs : List Petrophysics) : List Petrophysics :=
  zs.filter (fun z => z.zone_type == "reservoir")

/-- Comprehension over zones keeping zone_type water_bearing (reports.py
line 225). -/
def waterZones (zs : List Petrophysics) : List Petrophysics :=
  zs.filter (fun z => z.zone_type == "water_bearing")

/-- Total thickness `sum(z.depth_to - z.depth_from for z in zones)`
(reports.py lines 83-84). -/
def totalThickness (zs : List Petrophysics) : ℝ :=
  (zs.map (fun z => z.depth_to - z.depth_from)).sum

/-- reports.py line 85: `reservoir_thickness / total_thickness if
total_thickness > 0 else 0`. -/
def netToGross (zs : List Petrophysics) : ℝ :=
  if totalThickness zs > 0 then totalThickness (reservoirZones zs) / totalThickness zs
  else 0

/-- reports.py lines 87-90: `avg_porosity = 0`, then when reservoir zones
exist, the mean of `z.porosity_effective or 0` over them.  On the values
read here `x or 0` coincides with `Option.getD x 0` (an absent value and a
present 0.0 both give 0). -/
def avgPorosity (zs : List Petrophysics) : ℝ :=
  if reservoirZones zs = [] then 0
  else ((reservoirZones zs).map (fun z => z.porosity_effective.getD 0)).sum /
    (reservoirZones zs).length

/-- reports.py lines 88-91: same for `z.saturation_water or 0`. -/
def avgSw (zs : List Petrophysics) : ℝ :=
  if reservoirZones zs = [] then 0
  else ((reservoirZones zs).map (fun z => z.saturation_water.getD 0)).sum /
    (reservoirZones zs).length

/-- Python `round(x, 3)`; exact ties round half-to-even in Python while
`round` here rounds half away from the smaller integer — no claim and no
concrete input below sits on an exact tie. -/
def round3 (x : ℝ) : ℝ := ((round (x * 1000) : ℤ) : ℝ) / 1000

/-- reports.py line 111: `round(avg_porosity, 3) if avg_porosity else
None` — truthiness on a float: the summary field is absent whenever the
computed mean is 0. -/
def reportedAvgPorosity (zs : List Petrophysics) : Option ℝ :=
  if avgPorosity zs ≠ 0 then some (round3 (avgPorosity zs)) else none

/-- reports.py line 112: `round(avg_sw, 3) if avg_sw else None`. -/
def reportedAvgSw (zs : List Petrophysics) : Option ℝ :=
  if avgSw zs ≠ 0 then some (round3 (avgSw zs)) else none

/-- Python `x or d` on an optional float: `None` and `0.0` both fall back
to the default. -/
def pyOr (x : Option ℝ) (d : ℝ) : ℝ :=
  match x with
  | some v => if v ≠ 0 then v else d
  | none => d

/-- reports.py line 215: the best-zone key
`(z.porosity_effective or 0) * (1 - (z.saturation_water or 1))`. -/
def zoneScore (z : Petrophysics) : ℝ :=
  pyOr z.porosity_effective 0 * (1 - pyOr z.saturation_water 1)

/-- Python `max(iterable, key=f)`: scan left to right keeping the current
best, replacing it only on a strictly larger key — ties keep the earlier
element. -/
def pyMaxBy (key : Petrophysics → ℝ) : Petrophysics → List Petrophysics → Petrophysics
  | best, [] => best
  | best, z :: rest => if key z > key best then pyMaxBy key z rest else pyMaxBy key best rest

/-- reports.py line 214: `max(reservoir_zones, key=...)`, only evaluated
when the reservoir list is nonempty (guard at line 212). -/
def bestZone : List Petrophysics → Option Petrophysics
  | [] => none
  | z :: rest => some (pyMaxBy zoneScore z rest)

/-- Inner loop of reports.py lines 228-234: scan the reservoir zones and
stop at the first one with `abs(wz.depth_from - rz.depth_to) < 20`
(the `break`). -/
def scanReservoirs (wz : Petrophysics) : List Petrophysics → Bool
  | [] => false
  | rz :: rest =>
      if |wz.depth_from - rz.depth_to| < 20 then true else scanReservoirs wz rest

/-- Outer loop of reports.py lines 227-234: one warning (recorded here by
the `depth_from` of the water zone, which the warning text interpolates) per
water zone that has a near reservoir. -/
def warnLoop (reservoirs : List Petrophysics) : List Petrophysics → List ℝ
  | [] => []
  | wz :: rest =>
      (if scanReservoirs wz reservoirs then [wz.depth_from] else []) ++
        warnLoop reservoirs rest

/-- reports.py lines 225-234: the proximity warnings, guarded by
`if water_zones and reservoir_zones:` (truthiness on lists =
nonemptiness). -/
def proximityWarnings (zs : List Petrophysics) : List ℝ :=
  if waterZones zs ≠ [] ∧ reservoirZones zs ≠ [] then
    warnLoop (reservoirZones zs) (waterZones zs)
  else []

/-- Modelled from the words of the spec for the refinement comparison of claim
C1: "if vshale_mean ≥ 0.3 → shale, else if saturation_water is present and
< 0.5 → reservoir, else → water_bearing". -/
def specClassify (vm : ℝ) (sw : Option ℝ) : String :=
  if 0.3 ≤ vm then "shale"
  else if ∃ s, sw = some s ∧ s < 0.5 then "reservoir"
  else "water_bearing"

/-- Modelled from the words of the claim for the refinement comparison of claim
C10: score = (porosity_effective treated as 0 when absent) ×
(1 − (saturation_water treated as 1 when absent)). -/
def claimZoneScore (z : Petrophysics) : ℝ :=
  z.porosity_effective.getD 0 * (1 - z.saturation_water.getD 1)

/-! ### Concrete stores, requests and records used by witnesses and
counterexamples -/

/-- A store holding a single GR sample at depth 150 with the clean-sand
value 20. -/
def st1 : List WellLogEntry := [⟨"GR", 150, 20⟩]

/-- Default-calibration request over the interval `[100, 200]`. -/
def q1 : CalcRequest := { depth_from := some 100, depth_to := some 200 }

/-- The record `calculate st1 q1` produces. -/
def rec1 : Petrophysics :=
  ⟨100, 200, none, none, none, none, some 0, "water_bearing", "auto"⟩

/-- A GR sample whose value coincides with the degenerate calibration of
`q2`. -/
def st2 : List WellLogEntry := [⟨"GR", 150, 50⟩]

/-- Degenerate calibration `gr_clean = gr_shale = 50` (the
ConfigurationError precondition of the spec). -/
def q2 : CalcRequest :=
  { depth_from := some 100, depth_to := some 200, gr_clean := 50, gr_shale := 50 }

/-- The record the pipeline stores for `st2`/`q2` (in the Python source the
division is `0/0`, i.e. numpy NaN; real-number division by zero is 0
here, but the control flow — no error branch — is identical). -/
def rec2 : Petrophysics :=
  ⟨100, 200, none, none, none, none, some 0, "water_bearing", "auto"⟩

/-- GR and Density samples for the `rho_matrix = rho_fluid` degenerate
case. -/
def st2b : List WellLogEntry := [⟨"GR", 150, 20⟩, ⟨"DENS", 150, 1⟩]

/-- Degenerate calibration `rho_matrix = rho_fluid = 1`. -/
def q2b : CalcRequest :=
  { depth_from := some 100, depth_to := some 200, rho_matrix := 1, rho_fluid := 1 }

/-- The record the pipeline stores for `st2b`/`q2b`. -/
def rec2b : Petrophysics :=
  ⟨100, 200, some 0, some 0, none, none, some 0, "water_bearing", "auto"⟩

/-- A single GR sample sitting exactly at depth 100. -/
def st3 : List WellLogEntry := [⟨"GR", 100, 20⟩]

/-- A request with `depth_from = depth_to = 100` (an interval the claimed
InvalidRange check would reject). -/
def q3 : CalcRequest := { depth_from := some 100, depth_to := some 100 }

/-- The zero-thickness record `calculate st3 q3` stores. -/
def rec3 : Petrophysics :=
  ⟨100, 100, none, none, none, none, some 0, "water_bearing", "auto"⟩

/-- A store holding only a Density sample (no GR). -/
def stD : List WellLogEntry := [⟨"DENS", 150, 2.65⟩]

/-- GR plus a Density sample at matrix density. -/
def stC6 : List WellLogEntry := [⟨"GR", 150, 20⟩, ⟨"DENS", 150, 2.65⟩]

/-- The record `calculate stC6 q1` produces. -/
def recC6 : Petrophysics :=
  ⟨100, 200, some 0, some 0, none, none, some 0, "water_bearing", "auto"⟩

/-- A manually entered reservoir zone with `vshale` present but zero. -/
def zC5 : Petrophysics :=
  ⟨2850, 2920, some 0.2, some 0.16, some 0.3, none, some 0, "reservoir", "manual"⟩

/-- A reservoir zone with nonzero porosity, vshale and saturation. -/
def zC5w : Petrophysics :=
  ⟨2850, 2920, some 0.2, some 0.12, some 0.35, none, some 0.12, "reservoir", "auto"⟩

/-- A reservoir zone, thickness 30. -/
def zA : Petrophysics :=
  ⟨2850, 2880, some 0.2, some 0.16, some 0.35, none, some 0.12, "reservoir", "auto"⟩

/-- A shale zone, thickness 50. -/
def zB : Petrophysics :=
  ⟨2800, 2850, none, none, none, none, some 0.75, "shale", "auto"⟩

/-- A reservoir zone carrying `porosity_effective = 0.25` and
`saturation_water = 0.3`. -/
def zC8w : Petrophysics :=
  ⟨2850, 2880, some 0.3, some 0.25, some 0.3, some 0.7, some 0.1, "reservoir", "auto"⟩

/-- A reservoir zone with a present-but-zero water saturation and the
larger effective porosity. -/
def zX : Petrophysics :=
  ⟨2850, 2880, some 0.35, some 0.3, some 0, none, some 0.1, "reservoir", "manual"⟩

/-- A reservoir zone with `porosity_effective = 0.2`,
`saturation_water = 0.5`. -/
def zY : Petrophysics :=
  ⟨2900, 2930, some 0.25, some 0.2, some 0.5, some 0.5, some 0.1, "reservoir", "auto"⟩

/-- A request with no depth_from at all. -/
def qM : CalcRequest := { depth_from := none, depth_to := some 200 }

/-- A request with depth_from strictly greater than depth_to. -/
def qR : CalcRequest := { depth_from := some 200, depth_to := some 100 }

/-- Water-bearing zone starting at 3050 (spec §8 scenario). -/
def zW1 : Petrophysics :=
  ⟨3050, 3120, none, none, some 0.85, none, some 0.15, "water_bearing", "auto"⟩

/-- Water-bearing zone starting at 2935, within 20 m of the bottom of `zA2`. -/
def zW2 : Petrophysics :=
  ⟨2935, 3050, none, none, some 0.9, none, some 0.2, "water_bearing", "auto"⟩

/-- Reservoir zone 2850-2920 (spec §8 scenario). -/
def zA2 : Petrophysics :=
  ⟨2850, 2920, some 0.2, some 0.16, some 0.35, none, some 0.12, "reservoir", "auto"⟩

/-! ### Helper lemmas -/

theorem clip_le_hi (x lo hi : ℝ) : clip x lo hi ≤ hi := min_le_right _ _

theorem lo_le_clip (x : ℝ) {lo hi : ℝ} (h : lo ≤ hi) : lo ≤ clip x lo hi :=
  le_min (le_max_right _ _) h

theorem clip_of_le_of_le {x lo hi : ℝ} (h1 : lo ≤ x) (h2 : x ≤ hi) : clip x lo hi = x := by
  rw [clip, max_eq_left h1, min_eq_left h2]

theorem mean_le {l : List ℝ} {hi : ℝ} (hne : l ≠ []) (h : ∀ x ∈ l, x ≤ hi) :
    mean l ≤ hi := by
  have hlen : (0:ℝ) < l.length := by exact_mod_cast List.length_pos.mpr hne
  rw [mean, div_le_iff₀ hlen]
  have hs := List.sum_le_card_nsmul l hi h
  rwa [nsmul_eq_mul, mul_comm] at hs

theorem le_mean {l : List ℝ} {lo : ℝ} (hne : l ≠ []) (h : ∀ x ∈ l, lo ≤ x) :
    lo ≤ mean l := by
  have hlen : (0:ℝ) < l.length := by exact_mod_cast List.length_pos.mpr hne
  rw [mean, le_div_iff₀ hlen]
  have hs := List.card_nsmul_le_sum l lo h
  rwa [nsmul_eq_mul, mul_comm] at hs

theorem vshaleMean_mem {grVals : List ℝ} (hne : grVals ≠ []) (gc gs : ℝ) :
    0 ≤ vshaleMean grVals gc gs ∧ vshaleMean grVals gc gs ≤ 1 := by
  have hne2 : grVals.map (fun g =>
      clip (0.33 * ((2:ℝ) ^ (2 * clip ((g - gc) / (gs - gc)) 0 1) - 1)) 0 1) ≠ [] := by
    simpa using hne
  refine ⟨le_mean hne2 ?_, mean_le hne2 ?_⟩
  · intro x hx
    rw [List.mem_map] at hx
    obtain ⟨g, -, rfl⟩ := hx
    exact lo_le_clip _ (by norm_num)
  · intro x hx
    rw [List.mem_map] at hx
    obtain ⟨g, -, rfl⟩ := hx
    exact clip_le_hi _ _ _

theorem densPorosity_nonneg {densVals : List ℝ} (hne : densVals ≠ []) (rm rf : ℝ) :
    0 ≤ densPorosity densVals rm rf := by
  have hne2 : densVals.map (fun rho => clip ((rm - rho) / (rm - rf)) 0 0.5) ≠ [] := by
    simpa using hne
  refine le_mean hne2 ?_
  intro x hx
  rw [List.mem_map] at hx
  obtain ⟨rho, -, rfl⟩ := hx
  exact lo_le_clip _ (by norm_num)

theorem selectCurve_eq_nil_of_lt {dfrom dto : ℝ} (t : String) (h : dto < dfrom) :
    ∀ l : List WellLogEntry, selectCurve t dfrom dto l = [] := by
  intro l
  induction l with
  | nil => rfl
  | cons e rest ih =>
      rw [selectCurve, if_neg, ih]
      rintro ⟨-, h1, h2⟩
      exact absurd (h1.trans h2) (not_le.mpr h)

theorem curveValues_eq_nil_of_lt {dfrom dto : ℝ} (store : List WellLogEntry)
    (t : String) (h : dto < dfrom) : curveValues store t dfrom dto = [] := by
  rw [curveValues, selectCurve_eq_nil_of_lt t h]
  rfl

theorem calculate_ok_iff {store : List WellLogEntry} {q : CalcRequest} {r : Petrophysics} :
    calculate store q = .ok r ↔
      ∃ dfrom dto, q.depth_from = some dfrom ∧ q.depth_to = some dto ∧
        dfrom ≠ 0 ∧ dto ≠ 0 ∧ curveValues store "GR" dfrom dto ≠ [] ∧
        r = mkRecord store q dfrom dto := by
  cases hdf : q.depth_from with
  | none => simp [calculate, hdf]
  | some dfrom =>
      cases hdt : q.depth_to with
      | none => simp [calculate, hdf, hdt]
      | some dto =>
          by_cases h0 : dfrom = 0 ∨ dto = 0
          · rw [calculate, hdf, hdt]
            dsimp only
            rw [if_pos h0]
            simp only [reduceCtorEq, false_iff]
            rintro ⟨a, b, ha, hb, ha0, hb0, -, -⟩
            rw [Option.some.injEq] at ha hb
            rcases h0 with h0 | h0
            · exact ha0 (ha.symm.trans h0)
            · exact hb0 (hb.symm.trans h0)
          · push_neg at h0
            rw [calculate, hdf, hdt]
            dsimp only
            rw [if_neg (by tauto), calcBody]
            by_cases hgr : curveValues store "GR" dfrom dto = []
            · rw [if_pos hgr]
              simp only [reduceCtorEq, false_iff]
              rintro ⟨a, b, ha, hb, -, -, hgr2, -⟩
              rw [Option.some.injEq] at ha hb
              subst ha; subst hb
              exact hgr2 hgr
            · rw [if_neg hgr]
              constructor
              · intro h
                rw [Except.ok.injEq] at h
                exact ⟨dfrom, dto, rfl, rfl, h0.1, h0.2, hgr, h.symm⟩
              · rintro ⟨a, b, ha, hb, -, -, -, hr⟩
                rw [Option.some.injEq] at ha hb
                subst ha; subst hb; subst hr
                rfl

theorem calculate_missingDepth {store : List WellLogEntry} {q : CalcRequest}
    (h : q.depth_from = none ∨ q.depth_from = some 0 ∨
      q.depth_to = none ∨ q.depth_to = some 0) :
    calculate store q = .error .missingDepth := by
  cases hdf : q.depth_from with
  | none => rw [calculate, hdf]
  | some dfrom =>
      cases hdt : q.depth_to with
      | none => rw [calculate, hdf, hdt]
      | some dto =>
          rw [calculate, hdf, hdt]
          dsimp only
          rw [if_pos]
          rcases h with h | h | h | h
          · exact absurd (hdf.symm.trans h) (by simp)
          · rw [hdf, Option.some.injEq] at h
            exact Or.inl h
          · exact absurd (hdt.symm.trans h) (by simp)
          · rw [hdt, Option.some.injEq] at h
            exact Or.inr h

theorem calculate_missingGR {store : List WellLogEntry} {q : CalcRequest}
    {dfrom dto : ℝ} (hdf : q.depth_from = some dfrom) (hdt : q.depth_to = some dto)
    (h1 : dfrom ≠ 0) (h2 : dto ≠ 0) (hgr : curveValues store "GR" dfrom dto = []) :
    calculate store q = .error .missingGR := by
  rw [calculate, hdf, hdt]
  dsimp only
  rw [if_neg (by tauto), calcBody, if_pos hgr]

theorem archieSw_pos {pe rt : ℝ} (hpe : 0 < pe) (hrt : 0 < rt) : 0 < archieSw pe rt := by
  have hbase : 0 < ((1:ℝ) * 0.1) / (pe ^ (2:ℝ) * rt) := by
    apply div_pos (by norm_num)
    exact mul_pos (Real.rpow_pos_of_pos hpe 2) hrt
  exact lt_min one_pos (Real.rpow_pos_of_pos hbase _)

theorem swCalc_pos {pe : Option ℝ} {resis : List ℝ} {s : ℝ}
    (h : swCalc pe resis = some s) : 0 < s := by
  match pe with
  | none => simp [swCalc] at h
  | some pev =>
      rw [swCalc] at h
      split at h
      · split at h
        · rename_i hcond
          rw [Option.some.injEq] at h
          rw [← h]
          exact archieSw_pos hcond.1 hcond.2
        · exact absurd h (by simp)
      · exact absurd h (by simp)

theorem swOpt_pos {store : List WellLogEntry} {q : CalcRequest} {dfrom dto s : ℝ}
    (h : swOpt store q dfrom dto = some s) : 0 < s := by
  rw [swOpt] at h
  exact swCalc_pos h

theorem classify_agrees {vm : ℝ} {sw : Option ℝ}
    (hsw : sw = none ∨ ∃ s, sw = some s ∧ 0 < s) :
    classifyZone vm sw = specClassify vm sw := by
  rcases hsw with rfl | ⟨s, rfl, hs⟩
  · by_cases h : vm < 0.3
    · rw [classifyZone, specClassify, if_pos h, if_neg (not_le.mpr h), if_neg (by simp)]
    · rw [classifyZone, specClassify, if_neg h, if_pos (not_lt.mp h)]
  · by_cases h : vm < 0.3
    · rw [classifyZone, specClassify, if_pos h, if_neg (not_le.mpr h)]
      by_cases h5 : s < 0.5
      · rw [if_pos ⟨ne_of_gt hs, h5⟩, if_pos ⟨s, rfl, h5⟩]
      · rw [if_neg (fun hc => h5 hc.2), if_neg]
        rintro ⟨s2, hs2, hlt⟩
        rw [Option.some.injEq] at hs2
        exact h5 (hs2 ▸ hlt)
    · rw [classifyZone, specClassify, if_neg h, if_pos (not_lt.mp h)]


/-! ### Concrete evaluations -/

theorem cv_st1_GR : curveValues st1 "GR" 100 200 = [20] := by
  norm_num [st1, curveValues, selectCurve, sortByDepth, insertByDepth]

theorem cv_st1_DENS : curveValues st1 "DENS" 100 200 = [] := by
  norm_num [st1, curveValues, selectCurve, sortByDepth, insertByDepth]

theorem cv_st1_RESIS : curveValues st1 "RESIS" 100 200 = [] := by
  norm_num [st1, curveValues, selectCurve, sortByDepth, insertByDepth]

theorem cv_st2_GR : curveValues st2 "GR" 100 200 = [50] := by
  norm_num [st2, curveValues, selectCurve, sortByDepth, insertByDepth]

theorem cv_st2_DENS : curveValues st2 "DENS" 100 200 = [] := by
  norm_num [st2, curveValues, selectCurve, sortByDepth, insertByDepth]

theorem cv_st2_RESIS : curveValues st2 "RESIS" 100 200 = [] := by
  norm_num [st2, curveValues, selectCurve, sortByDepth, insertByDepth]

theorem cv_st2b_GR : curveValues st2b "GR" 100 200 = [20] := by
  norm_num [st2b, curveValues, selectCurve, sortByDepth, insertByDepth]

theorem cv_st2b_DENS : curveValues st2b "DENS" 100 200 = [1] := by
  norm_num [st2b, curveValues, selectCurve, sortByDepth, insertByDepth]

theorem cv_st2b_RESIS : curveValues st2b "RESIS" 100 200 = [] := by
  norm_num [st2b, curveValues, selectCurve, sortByDepth, insertByDepth]

theorem cv_st3_GR : curveValues st3 "GR" 100 100 = [20] := by
  norm_num [st3, curveValues, selectCurve, sortByDepth, insertByDepth]

theorem cv_st3_DENS : curveValues st3 "DENS" 100 100 = [] := by
  norm_num [st3, curveValues, selectCurve, sortByDepth, insertByDepth]

theorem cv_st3_RESIS : curveValues st3 "RESIS" 100 100 = [] := by
  norm_num [st3, curveValues, selectCurve, sortByDepth, insertByDepth]

theorem cv_stD_GR : curveValues stD "GR" 100 200 = [] := by
  norm_num [stD, curveValues, selectCurve, sortByDepth, insertByDepth]

theorem cv_stC6_GR : curveValues stC6 "GR" 100 200 = [20] := by
  norm_num [stC6, curveValues, selectCurve, sortByDepth, insertByDepth]

theorem cv_stC6_DENS : curveValues stC6 "DENS" 100 200 = [2.65] := by
  norm_num [stC6, curveValues, selectCurve, sortByDepth, insertByDepth]

theorem cv_stC6_RESIS : curveValues stC6 "RESIS" 100 200 = [] := by
  norm_num [stC6, curveValues, selectCurve, sortByDepth, insertByDepth]

theorem vshaleMean_20 : vshaleMean [20] 20 120 = 0 := by
  have h1 : clip (((20:ℝ) - 20) / (120 - 20)) 0 1 = 0 := by
    rw [clip_of_le_of_le] <;> norm_num
  rw [vshaleMean, List.map_cons, List.map_nil, h1]
  norm_num [Real.rpow_zero, mean, clip_of_le_of_le]

theorem vshaleMean_50 : vshaleMean [50] 50 50 = 0 := by
  have h1 : clip (((50:ℝ) - 50) / (50 - 50)) 0 1 = 0 := by
    rw [clip_of_le_of_le] <;> norm_num
  rw [vshaleMean, List.map_cons, List.map_nil, h1]
  norm_num [Real.rpow_zero, mean, clip_of_le_of_le]

theorem densPorosity_matrix : densPorosity [2.65] 2.65 1 = 0 := by
  have h1 : clip (((2.65:ℝ) - 2.65) / (2.65 - 1)) 0 0.5 = 0 := by
    rw [clip_of_le_of_le] <;> norm_num
  rw [densPorosity, List.map_cons, List.map_nil, h1]
  norm_num [mean]

theorem densPorosity_degenerate : densPorosity [1] 1 1 = 0 := by
  have h1 : clip (((1:ℝ) - 1) / (1 - 1)) 0 0.5 = 0 := by
    rw [clip_of_le_of_le] <;> norm_num
  rw [densPorosity, List.map_cons, List.map_nil, h1]
  norm_num [mean]

theorem calc_eval1 : calculate st1 q1 = .ok rec1 := by
  rw [calculate]
  dsimp only [q1]
  rw [if_neg (by norm_num), calcBody, cv_st1_GR, if_neg (by simp)]
  rw [mkRecord, cv_st1_GR]
  dsimp only [q1]
  simp only [porosityOpt, peOpt, swOpt, swCalc, soOf, classifyZone, cv_st1_DENS,
    cv_st1_RESIS, vshaleMean_20, if_pos rfl, Option.map_none, rec1]
  norm_num

theorem calc_eval2 : calculate st2 q2 = .ok rec2 := by
  rw [calculate]
  dsimp only [q2]
  rw [if_neg (by norm_num), calcBody, cv_st2_GR, if_neg (by simp)]
  rw [mkRecord, cv_st2_GR]
  dsimp only [q2]
  simp only [porosityOpt, peOpt, swOpt, swCalc, soOf, classifyZone, cv_st2_DENS,
    cv_st2_RESIS, vshaleMean_50, if_pos rfl, Option.map_none, rec2]
  norm_num

theorem calc_eval2b : calculate st2b q2b = .ok rec2b := by
  rw [calculate]
  dsimp only [q2b]
  rw [if_neg (by norm_num), calcBody, cv_st2b_GR, if_neg (by simp)]
  rw [mkRecord, cv_st2b_GR]
  dsimp only [q2b]
  simp only [porosityOpt, peOpt, swOpt, swCalc, soOf, classifyZone, cv_st2b_DENS,
    cv_st2b_RESIS, vshaleMean_20, densPorosity_degenerate, Option.map_some, rec2b]
  norm_num

theorem calc_eval3 : calculate st3 q3 = .ok rec3 := by
  rw [calculate]
  dsimp only [q3]
  rw [if_neg (by norm_num), calcBody, cv_st3_GR, if_neg (by simp)]
  rw [mkRecord, cv_st3_GR]
  dsimp only [q3]
  simp only [porosityOpt, peOpt, swOpt, swCalc, soOf, classifyZone, cv_st3_DENS,
    cv_st3_RESIS, vshaleMean_20, if_pos rfl, Option.map_none, rec3]
  norm_num

theorem calc_evalC6 : calculate stC6 q1 = .ok recC6 := by
  rw [calculate]
  dsimp only [q1]
  rw [if_neg (by norm_num), calcBody, cv_stC6_GR, if_neg (by simp)]
  rw [mkRecord, cv_stC6_GR]
  dsimp only [q1]
  simp only [porosityOpt, peOpt, swOpt, swCalc, soOf, classifyZone, cv_stC6_DENS,
    cv_stC6_RESIS, vshaleMean_20, densPorosity_matrix, Option.map_some, recC6]
  norm_num


theorem pyMaxBy_spec (key : Petrophysics → ℝ) (l : List Petrophysics) :
    ∀ best : Petrophysics,
    (pyMaxBy key best l = best ∧ ∀ x ∈ l, key x ≤ key best) ∨
    (∃ i, ∃ hi : i < l.length, pyMaxBy key best l = l.get ⟨i, hi⟩ ∧
      key best < key (l.get ⟨i, hi⟩) ∧
      (∀ j, ∀ hj : j < l.length, j < i → key (l.get ⟨j, hj⟩) < key (l.get ⟨i, hi⟩)) ∧
      (∀ j, ∀ hj : j < l.length, key (l.get ⟨j, hj⟩) ≤ key (l.get ⟨i, hi⟩))) := by
  induction l with
  | nil =>
      intro best
      left
      exact ⟨rfl, by simp⟩
  | cons x xs ih =>
      intro best
      by_cases hx : key x > key best
      · rw [pyMaxBy, if_pos hx]
        rcases ih x with ⟨heq, hall⟩ | ⟨i, hi, heq, hlt, hfirst, hmax⟩
        · right
          refine ⟨0, by simp, by simpa using heq, by simpa using hx, ?_, ?_⟩
          · intro j hj hj0
            omega
          · intro j hj
            match j with
            | 0 => simp
            | j2 + 1 =>
                have hj2 : j2 < xs.length := by simpa using hj
                have := hall (xs.get ⟨j2, hj2⟩) (xs.get_mem _ _)
                simpa using this
        · right
          refine ⟨i + 1, by simpa using Nat.succ_lt_succ hi, by simpa using heq,
            lt_trans hx hlt, ?_, ?_⟩
          · intro j hj hji
            match j with
            | 0 => simpa using hlt
            | j2 + 1 =>
                have hj2 : j2 < xs.length := by simpa using hj
                have := hfirst j2 hj2 (by omega)
                simpa using this
          · intro j hj
            match j with
            | 0 => simpa using le_of_lt hlt
            | j2 + 1 =>
                have hj2 : j2 < xs.length := by simpa using hj
                have := hmax j2 hj2
                simpa using this
      · rw [pyMaxBy, if_neg hx]
        rcases ih best with ⟨heq, hall⟩ | ⟨i, hi, heq, hlt, hfirst, hmax⟩
        · left
          refine ⟨heq, ?_⟩
          intro y hy
          rcases List.mem_cons.mp hy with rfl | hy2
          · exact not_lt.mp hx
          · exact hall y hy2
        · right
          refine ⟨i + 1, by simpa using Nat.succ_lt_succ hi, by simpa using heq,
            hlt, ?_, ?_⟩
          · intro j hj hji
            match j with
            | 0 => simpa using lt_of_le_of_lt (not_lt.mp hx) hlt
            | j2 + 1 =>
                have hj2 : j2 < xs.length := by simpa using hj
                have := hfirst j2 hj2 (by omega)
                simpa using this
          · intro j hj
            match j with
            | 0 => simpa using le_of_lt (lt_of_le_of_lt (not_lt.mp hx) hlt)
            | j2 + 1 =>
                have hj2 : j2 < xs.length := by simpa using hj
                have := hmax j2 hj2
                simpa using this

theorem pyMaxBy_first_max (key : Petrophysics → ℝ) (z : Petrophysics)
    (rest : List Petrophysics) :
    ∃ i, ∃ hi : i < (z :: rest).length,
      pyMaxBy key z rest = (z :: rest).get ⟨i, hi⟩ ∧
      (∀ j, ∀ hj : j < (z :: rest).length,
        key ((z :: rest).get ⟨j, hj⟩) ≤ key ((z :: rest).get ⟨i, hi⟩)) ∧
      (∀ j, ∀ hj : j < (z :: rest).length, j < i →
        key ((z :: rest).get ⟨j, hj⟩) < key ((z :: rest).get ⟨i, hi⟩)) := by
  rcases pyMaxBy_spec key rest z with ⟨heq, hall⟩ | ⟨i, hi, heq, hlt, hfirst, hmax⟩
  · refine ⟨0, by simp, by simpa using heq, ?_, ?_⟩
    · intro j hj
      match j with
      | 0 => simp
      | j2 + 1 =>
          have hj2 : j2 < rest.length := by simpa using hj
          have := hall (rest.get ⟨j2, hj2⟩) (rest.get_mem _ _)
          simpa using this
    · intro j hj hj0
      omega
  · refine ⟨i + 1, by simpa using Nat.succ_lt_succ hi, by simpa using heq, ?_, ?_⟩
    · intro j hj
      match j with
      | 0 => simpa using le_of_lt hlt
      | j2 + 1 =>
          have hj2 : j2 < rest.length := by simpa using hj
          have := hmax j2 hj2
          simpa using this
    · intro j hj hji
      match j with
      | 0 => simpa using hlt
      | j2 + 1 =>
          have hj2 : j2 < rest.length := by simpa using hj
          have := hfirst j2 hj2 (by omega)
          simpa using this

theorem scanReservoirs_iff (wz : Petrophysics) (l : List Petrophysics) :
    scanReservoirs wz l = true ↔ ∃ rz ∈ l, |wz.depth_from - rz.depth_to| < 20 := by
  induction l with
  | nil => simp [scanReservoirs]
  | cons rz rest ih =>
      rw [scanReservoirs]
      by_cases h : |wz.depth_from - rz.depth_to| < 20
      · rw [if_pos h]
        constructor
        · intro _
          exact ⟨rz, List.mem_cons_self rz rest, h⟩
        · intro _
          rfl
      · rw [if_neg h, ih]
        constructor
        · rintro ⟨a, ha, hp⟩
          exact ⟨a, List.mem_cons_of_mem _ ha, hp⟩
        · rintro ⟨a, ha, hp⟩
          rcases List.mem_cons.mp ha with rfl | ha2
          · exact absurd hp h
          · exact ⟨a, ha2, hp⟩

theorem mem_warnLoop (reservoirs waters : List Petrophysics) (d : ℝ) :
    d ∈ warnLoop reservoirs waters ↔
      ∃ wz ∈ waters, wz.depth_from = d ∧ scanReservoirs wz reservoirs = true := by
  induction waters with
  | nil => simp [warnLoop]
  | cons wz rest ih =>
      rw [warnLoop]
      by_cases h : scanReservoirs wz reservoirs = true
      · rw [if_pos h, List.singleton_append, List.mem_cons, ih]
        constructor
        · rintro (rfl | ⟨a, ha, hd, hs⟩)
          · exact ⟨wz, List.mem_cons_self _ _, rfl, h⟩
          · exact ⟨a, List.mem_cons_of_mem _ ha, hd, hs⟩
        · rintro ⟨a, ha, hd, hs⟩
          rcases List.mem_cons.mp ha with rfl | ha2
          · exact Or.inl hd.symm
          · exact Or.inr ⟨a, ha2, hd, hs⟩
      · rw [if_neg h, List.nil_append, ih]
        constructor
        · rintro ⟨a, ha, hd, hs⟩
          exact ⟨a, List.mem_cons_of_mem _ ha, hd, hs⟩
        · rintro ⟨a, ha, hd, hs⟩
          rcases List.mem_cons.mp ha with rfl | ha2
          · exact absurd hs h
          · exact ⟨a, ha2, hd, hs⟩

theorem warnLoop_length (reservoirs waters : List Petrophysics) :
    (warnLoop reservoirs waters).length =
      waters.countP (fun wz => scanReservoirs wz reservoirs) := by
  induction waters with
  | nil => rfl
  | cons wz rest ih =>
      rw [warnLoop, List.countP_cons, List.length_append, ih]
      by_cases h : scanReservoirs wz reservoirs = true
      · rw [if_pos h, if_pos h]
        simp [Nat.add_comm]
      · rw [if_neg h, if_neg h]
        simp


/-! ### Claim theorems -/

/-- Claim C1: every value bundle the pipeline computes is classified by
first match in this order: vshale_mean ≥ 0.3 (boundary inclusive on the
shale side) gives shale; otherwise a present saturation_water < 0.5 gives
reservoir; otherwise water_bearing.  (The code additionally treats a
present-but-zero Sw as absent, but a computed Sw is always positive, so on
pipeline outputs the rule is exactly the one of the spec.) -/
theorem C1_zone_classifier (store : List WellLogEntry) (q : CalcRequest)
    (r : Petrophysics) (h : calculate store q = .ok r) :
    ∃ vm, r.vshale = some vm ∧ r.zone_type = specClassify vm r.saturation_water := by
  obtain ⟨dfrom, dto, -, -, -, -, -, rfl⟩ := calculate_ok_iff.mp h
  refine ⟨vshaleMean (curveValues store "GR" dfrom dto) q.gr_clean q.gr_shale, rfl, ?_⟩
  show classifyZone (vshaleMean (curveValues store "GR" dfrom dto) q.gr_clean q.gr_shale)
      (swOpt store q dfrom dto) =
    specClassify (vshaleMean (curveValues store "GR" dfrom dto) q.gr_clean q.gr_shale)
      (swOpt store q dfrom dto)
  apply classify_agrees
  cases hsw : swOpt store q dfrom dto with
  | none => exact Or.inl rfl
  | some s => exact Or.inr ⟨s, rfl, swOpt_pos hsw⟩

/-- Witness for C1: concrete run ending in a water_bearing classification. -/
theorem C1_zone_classifier_witness :
    calculate st1 q1 = .ok rec1 ∧
    ∃ vm, rec1.vshale = some vm ∧ rec1.zone_type = specClassify vm rec1.saturation_water :=
  ⟨calc_eval1, C1_zone_classifier st1 q1 rec1 calc_eval1⟩

/-- Claim C2 (code bug): with `gr_shale = gr_clean`, and with `rho_matrix =
rho_fluid` and Density samples present, `calculate_petrophysics` does not
fail with any configuration error: the division runs and a record is
committed.  (In the Python source the numpy division yields NaN, which is
persisted; the real-number convention `x/0 = 0` stands in for NaN here —
the proved fact is the control flow: no error branch exists for these
calibrations and a record is stored.) -/
theorem C2_no_configuration_error_check :
    q2.gr_shale = q2.gr_clean ∧ q2b.rho_matrix = q2b.rho_fluid ∧
    calculateAndStore [] st2 q2 = ([rec2], .ok rec2) ∧
    calculateAndStore [] st2b q2b = ([rec2b], .ok rec2b) := by
  refine ⟨rfl, rfl, ?_, ?_⟩
  · simp [calculateAndStore, calc_eval2]
  · simp [calculateAndStore, calc_eval2b]

/-- Counterexample to claim C3: `depth_from = depth_to = 100` is not
rejected with any range error — the computation succeeds and a
zero-thickness Zone Record is persisted. -/
theorem C3_counterexample :
    q3.depth_from = some 100 ∧ q3.depth_to = some 100 ∧
    calculateAndStore [] st3 q3 = ([rec3], .ok rec3) := by
  refine ⟨rfl, rfl, ?_⟩
  simp [calculateAndStore, calc_eval3]

/-- Claim C3 (amended): a missing — or zero, by Python truthiness — depth
bound fails with the missing-parameter error before any extraction and
leaves the zone store unchanged.  `depth_from ≥ depth_to` is not rejected
as such: when `depth_from > depth_to` the interval is empty, so the
computation fails with the insufficient-data error (store still
unchanged); when `depth_from = depth_to` and a GR sample sits exactly at
that depth the computation proceeds and persists a record. -/
theorem C3_depth_validation :
    (∀ (zones : List Petrophysics) (store : List WellLogEntry) (q : CalcRequest),
      (q.depth_from = none ∨ q.depth_from = some 0 ∨
        q.depth_to = none ∨ q.depth_to = some 0) →
      calculateAndStore zones store q = (zones, .error .missingDepth)) ∧
    (∀ (zones : List Petrophysics) (store : List WellLogEntry) (q : CalcRequest)
      (dfrom dto : ℝ), q.depth_from = some dfrom → q.depth_to = some dto →
      dfrom ≠ 0 → dto ≠ 0 → dto < dfrom →
      calculateAndStore zones store q = (zones, .error .missingGR)) := by
  constructor
  · intro zones store q h
    rw [calculateAndStore, calculate_missingDepth h]
  · intro zones store q dfrom dto hdf hdt h1 h2 hlt
    rw [calculateAndStore,
      calculate_missingGR hdf hdt h1 h2 (curveValues_eq_nil_of_lt store "GR" hlt)]

/-- Witness for C3 (amended) at concrete requests. -/
theorem C3_depth_validation_witness :
    calculateAndStore [] st1 qM = ([], .error .missingDepth) ∧
    calculateAndStore [] st1 qR = ([], .error .missingGR) :=
  ⟨C3_depth_validation.1 [] st1 qM (Or.inl rfl),
   C3_depth_validation.2 [] st1 qR 200 100 rfl rfl (by norm_num) (by norm_num)
     (by norm_num)⟩

/-- Claim C4: an interval with no Gamma-Ray samples fails with the
insufficient-data error and leaves the zone store unchanged; when GR
samples are present the computation always succeeds, and the absence of
Density or Resistivity samples only leaves the corresponding derived
fields absent. -/
theorem C4_missing_curves :
    (∀ (zones : List Petrophysics) (store : List WellLogEntry) (q : CalcRequest)
      (dfrom dto : ℝ), q.depth_from = some dfrom → q.depth_to = some dto →
      dfrom ≠ 0 → dto ≠ 0 → curveValues store "GR" dfrom dto = [] →
      calculateAndStore zones store q = (zones, .error .missingGR)) ∧
    (∀ (store : List WellLogEntry) (q : CalcRequest) (dfrom dto : ℝ),
      q.depth_from = some dfrom → q.depth_to = some dto →
      dfrom ≠ 0 → dto ≠ 0 → curveValues store "GR" dfrom dto ≠ [] →
      ∃ r, calculate store q = .ok r ∧
        (curveValues store "DENS" dfrom dto = [] →
          r.porosity = none ∧ r.porosity_effective = none) ∧
        (curveValues store "RESIS" dfrom dto = [] →
          r.saturation_water = none ∧ r.saturation_oil = none)) := by
  constructor
  · intro zones store q dfrom dto hdf hdt h1 h2 hgr
    rw [calculateAndStore, calculate_missingGR hdf hdt h1 h2 hgr]
  · intro store q dfrom dto hdf hdt h1 h2 hgr
    refine ⟨mkRecord store q dfrom dto,
      calculate_ok_iff.mpr ⟨dfrom, dto, hdf, hdt, h1, h2, hgr, rfl⟩, ?_, ?_⟩
    · intro hdens
      constructor
      · show porosityOpt store q dfrom dto = none
        rw [porosityOpt, if_pos hdens]
      · show peOpt store q dfrom dto = none
        rw [peOpt, porosityOpt, if_pos hdens]
        rfl
    · intro hres
      have hsw : swOpt store q dfrom dto = none := by
        rw [swOpt, hres]
        cases peOpt store q dfrom dto with
        | none => rfl
        | some pev => simp [swCalc]
      refine ⟨hsw, ?_⟩
      show soOf (swOpt store q dfrom dto) = none
      rw [hsw]
      rfl

/-- Witness for C4: a GR-less store errors leaving the store unchanged; a
GR-only store succeeds with porosity, effective porosity, Sw and So all
absent. -/
theorem C4_missing_curves_witness :
    calculateAndStore [] stD q1 = ([], .error .missingGR) ∧
    ∃ r, calculate st1 q1 = .ok r ∧
      (curveValues st1 "DENS" 100 200 = [] →
        r.porosity = none ∧ r.porosity_effective = none) ∧
      (curveValues st1 "RESIS" 100 200 = [] →
        r.saturation_water = none ∧ r.saturation_oil = none) :=
  ⟨C4_missing_curves.1 [] stD q1 100 200 rfl rfl (by norm_num) (by norm_num) cv_stD_GR,
   C4_missing_curves.2 st1 q1 100 200 rfl rfl (by norm_num) (by norm_num)
     (by rw [cv_st1_GR]; simp)⟩

/-- Counterexample to claim C5: a record whose porosity, vshale and
saturation_water are all present and satisfy the claimed thresholds
(0.2 > 0.10, 0 < 0.40, 0.3 < 0.60), yet `is_reservoir` is false, because
the present-but-zero vshale fails the Python truthiness guard
`if self.porosity and self.vshale and self.saturation_water`. -/
theorem C5_counterexample :
    zC5.porosity = some 0.2 ∧ zC5.vshale = some 0 ∧ zC5.saturation_water = some 0.3 ∧
    (0.2:ℝ) > 0.10 ∧ (0:ℝ) < 0.40 ∧ (0.3:ℝ) < 0.60 ∧
    ¬ zC5.is_reservoir := by
  refine ⟨rfl, rfl, rfl, by norm_num, by norm_num, by norm_num, ?_⟩
  intro h
  obtain ⟨-, h0, -⟩ := h
  exact h0 rfl

/-- Claim C5 (amended): `is_reservoir` holds iff porosity, vshale and
saturation_water are all present, porosity > 0.10, vshale < 0.40 and
saturation_water < 0.60, AND vshale and saturation_water are additionally
nonzero (the truthiness guard; porosity > 0.10 already forces porosity ≠
0, so only the other two need the extra condition). -/
theorem C5_is_reservoir (z : Petrophysics) :
    z.is_reservoir ↔ ∃ p v s, z.porosity = some p ∧ z.vshale = some v ∧
      z.saturation_water = some s ∧
      p > 0.10 ∧ v ≠ 0 ∧ v < 0.40 ∧ s ≠ 0 ∧ s < 0.60 := by
  cases hp : z.porosity with
  | none => simp [Petrophysics.is_reservoir, hp]
  | some p =>
      cases hv : z.vshale with
      | none => simp [Petrophysics.is_reservoir, hp, hv]
      | some v =>
          cases hs : z.saturation_water with
          | none => simp [Petrophysics.is_reservoir, hp, hv, hs]
          | some s =>
              simp only [Petrophysics.is_reservoir, hp, hv, hs, Option.some.injEq]
              constructor
              · rintro ⟨hp0, hv0, hs0, h1, h2, h3⟩
                exact ⟨p, v, s, rfl, rfl, rfl, h1, hv0, h2, hs0, h3⟩
              · rintro ⟨p2, v2, s2, hpe, hve, hse, h1, hv0, h2, hs0, h3⟩
                subst hpe; subst hve; subst hse
                exact ⟨ne_of_gt (lt_trans (by norm_num) h1), hv0, hs0, h1, h2, h3⟩

/-- Witness for C5 (amended): a record with all three values present and
nonzero satisfying the thresholds is a reservoir. -/
theorem C5_is_reservoir_witness : zC5w.is_reservoir :=
  (C5_is_reservoir zC5w).mpr
    ⟨0.2, 0.12, 0.35, rfl, rfl, rfl, by norm_num, by norm_num, by norm_num,
      by norm_num, by norm_num⟩

/-- Claim C6: on every successful computation, if porosity was computed
then porosity_effective = porosity × (1 − vshale_mean) with the stored
vshale_mean in [0,1], hence 0 ≤ porosity_effective ≤ porosity; if porosity
is absent so is porosity_effective. -/
theorem C6_effective_porosity (store : List WellLogEntry) (q : CalcRequest)
    (r : Petrophysics) (h : calculate store q = .ok r) :
    (r.porosity = none → r.porosity_effective = none) ∧
    ∀ p, r.porosity = some p → ∃ vm, r.vshale = some vm ∧ 0 ≤ vm ∧ vm ≤ 1 ∧
      r.porosity_effective = some (p * (1 - vm)) ∧
      0 ≤ p * (1 - vm) ∧ p * (1 - vm) ≤ p := by
  obtain ⟨dfrom, dto, -, -, -, -, hgr, rfl⟩ := calculate_ok_iff.mp h
  constructor
  · intro hp
    have hp2 : porosityOpt store q dfrom dto = none := hp
    show peOpt store q dfrom dto = none
    rw [peOpt, hp2]
    rfl
  · intro p hp
    have hp2 : porosityOpt store q dfrom dto = some p := hp
    have hp0 : 0 ≤ p := by
      rw [porosityOpt] at hp2
      by_cases hd : curveValues store "DENS" dfrom dto = []
      · rw [if_pos hd] at hp2
        exact absurd hp2 (by simp)
      · rw [if_neg hd, Option.some.injEq] at hp2
        rw [← hp2]
        exact densPorosity_nonneg hd _ _
    have hvm := vshaleMean_mem hgr q.gr_clean q.gr_shale
    refine ⟨vshaleMean (curveValues store "GR" dfrom dto) q.gr_clean q.gr_shale,
      rfl, hvm.1, hvm.2, ?_, ?_, ?_⟩
    · show peOpt store q dfrom dto = some _
      have hp3 : porosityOpt store q dfrom dto = some p := hp
      rw [peOpt, hp3]
      rfl
    · exact mul_nonneg hp0 (by linarith [hvm.2])
    · nlinarith [hvm.1, hvm.2, hp0]

/-- Witness for C6: concrete run with a Density curve at matrix density. -/
theorem C6_effective_porosity_witness :
    calculate stC6 q1 = .ok recC6 ∧
    ((recC6.porosity = none → recC6.porosity_effective = none) ∧
      ∀ p, recC6.porosity = some p → ∃ vm, recC6.vshale = some vm ∧ 0 ≤ vm ∧ vm ≤ 1 ∧
        recC6.porosity_effective = some (p * (1 - vm)) ∧
        0 ≤ p * (1 - vm) ∧ p * (1 - vm) ≤ p) :=
  ⟨calc_evalC6, C6_effective_porosity stC6 q1 recC6 calc_evalC6⟩

/-- Claim C7: over well-formed zones (depth_from ≤ depth_to, the data-model
invariant), net_to_gross is the reservoir thickness divided by the total
thickness, and 0 when the total thickness is 0 (no division-by-zero
failure). -/
theorem C7_net_to_gross (zs : List Petrophysics)
    (h : ∀ z ∈ zs, z.depth_from ≤ z.depth_to) :
    (totalThickness zs = 0 → netToGross zs = 0) ∧
    (totalThickness zs ≠ 0 →
      netToGross zs = totalThickness (reservoirZones zs) / totalThickness zs) := by
  have h0 : 0 ≤ totalThickness zs := by
    apply List.sum_nonneg
    intro x hx
    rw [List.mem_map] at hx
    obtain ⟨z, hz, rfl⟩ := hx
    exact sub_nonneg.mpr (h z hz)
  constructor
  · intro ht
    rw [netToGross, if_neg (by rw [ht]; exact lt_irrefl 0)]
  · intro ht
    rw [netToGross, if_pos (lt_of_le_of_ne h0 (Ne.symm ht))]

/-- Witness for C7: a 30 m reservoir zone and a 50 m shale zone give
net-to-gross 30/80. -/
theorem C7_net_to_gross_witness :
    (∀ z ∈ [zA, zB], z.depth_from ≤ z.depth_to) ∧
    ((totalThickness [zA, zB] = 0 → netToGross [zA, zB] = 0) ∧
      (totalThickness [zA, zB] ≠ 0 →
        netToGross [zA, zB] =
          totalThickness (reservoirZones [zA, zB]) / totalThickness [zA, zB])) ∧
    netToGross [zA, zB] = 30 / 80 := by
  have hz : ∀ z ∈ [zA, zB], z.depth_from ≤ z.depth_to := by
    intro z hz
    rcases List.mem_cons.mp hz with rfl | hz2
    · show (2850:ℝ) ≤ 2880
      norm_num
    · rcases List.mem_cons.mp hz2 with rfl | hz3
      · show (2800:ℝ) ≤ 2850
        norm_num
      · exact absurd hz3 (List.not_mem_nil z)
  have h1 : totalThickness [zA, zB] = 80 := by
    norm_num [totalThickness, zA, zB]
  have h2 : reservoirZones [zA, zB] = [zA] := by
    simp [reservoirZones, zA, zB]
  refine ⟨hz, C7_net_to_gross [zA, zB] hz, ?_⟩
  rw [netToGross, h2, h1, if_pos (by norm_num)]
  norm_num [totalThickness, zA]

/-- Claim C8: avg_porosity and avg_sw are the arithmetic means of
porosity_effective / saturation_water over reservoir zones only, treating
an absent value as 0; with no reservoir zones both computed averages are 0
and the summary reports both fields as absent (no zero-division crash —
the division is guarded by the nonemptiness test). -/
theorem C8_reservoir_averages (zs : List Petrophysics) :
    (reservoirZones zs ≠ [] →
      avgPorosity zs =
        ((reservoirZones zs).map (fun z => z.porosity_effective.getD 0)).sum /
          (reservoirZones zs).length ∧
      avgSw zs =
        ((reservoirZones zs).map (fun z => z.saturation_water.getD 0)).sum /
          (reservoirZones zs).length) ∧
    (reservoirZones zs = [] →
      avgPorosity zs = 0 ∧ avgSw zs = 0 ∧
      reportedAvgPorosity zs = none ∧ reportedAvgSw zs = none) := by
  constructor
  · intro hne
    exact ⟨by rw [avgPorosity, if_neg hne], by rw [avgSw, if_neg hne]⟩
  · intro hnil
    have hp : avgPorosity zs = 0 := by rw [avgPorosity, if_pos hnil]
    have hs : avgSw zs = 0 := by rw [avgSw, if_pos hnil]
    exact ⟨hp, hs, by rw [reportedAvgPorosity, if_neg (fun hc => hc hp)],
      by rw [reportedAvgSw, if_neg (fun hc => hc hs)]⟩

/-- Witness for C8: both branches at concrete inputs. -/
theorem C8_reservoir_averages_witness :
    (reservoirZones [zC8w] ≠ [] ∧
      avgPorosity [zC8w] =
        ((reservoirZones [zC8w]).map (fun z => z.porosity_effective.getD 0)).sum /
          (reservoirZones [zC8w]).length) ∧
    (reservoirZones ([] : List Petrophysics) = [] ∧
      reportedAvgPorosity ([] : List Petrophysics) = none ∧
      reportedAvgSw ([] : List Petrophysics) = none) := by
  have hne : reservoirZones [zC8w] ≠ [] := by simp [reservoirZones, zC8w]
  have hnil : reservoirZones ([] : List Petrophysics) = [] := rfl
  exact ⟨⟨hne, ((C8_reservoir_averages [zC8w]).1 hne).1⟩,
    ⟨hnil, ((C8_reservoir_averages []).2 hnil).2.2.1,
      ((C8_reservoir_averages []).2 hnil).2.2.2⟩⟩

/-- Claim C9: a water-encroachment warning is emitted for a water_bearing
zone W exactly when some reservoir zone R satisfies
|W.depth_from − R.depth_to| < 20 (strict, so a distance of exactly 20
yields no warning), and each water zone triggers at most one warning —
the warning count is exactly the number of water zones with a near
reservoir. -/
theorem C9_proximity_warnings (zs : List Petrophysics) (d : ℝ) :
    (d ∈ proximityWarnings zs ↔
      ∃ wz ∈ waterZones zs, wz.depth_from = d ∧
        ∃ rz ∈ reservoirZones zs, |wz.depth_from - rz.depth_to| < 20) ∧
    (proximityWarnings zs).length =
      (waterZones zs).countP
        (fun wz => decide (∃ rz ∈ reservoirZones zs, |wz.depth_from - rz.depth_to| < 20)) := by
  by_cases hg : waterZones zs ≠ [] ∧ reservoirZones zs ≠ []
  · rw [proximityWarnings, if_pos hg]
    constructor
    · rw [mem_warnLoop]
      constructor
      · rintro ⟨wz, hwz, rfl, hscan⟩
        exact ⟨wz, hwz, rfl, (scanReservoirs_iff wz _).mp hscan⟩
      · rintro ⟨wz, hwz, rfl, hex⟩
        exact ⟨wz, hwz, rfl, (scanReservoirs_iff wz _).mpr hex⟩
    · rw [warnLoop_length]
      apply List.countP_congr
      intro wz hwz
      rw [scanReservoirs_iff, decide_eq_true_eq]
  · rw [proximityWarnings, if_neg hg]
    rw [not_and_or] at hg
    constructor
    · simp only [List.not_mem_nil, false_iff]
      rintro ⟨wz, hwz, -, rz, hrz, -⟩
      rcases hg with hw | hr
      · rw [not_not] at hw
        rw [hw] at hwz
        exact absurd hwz (List.not_mem_nil wz)
      · rw [not_not] at hr
        rw [hr] at hrz
        exact absurd hrz (List.not_mem_nil rz)
    · show (0:ℕ) = _
      symm
      rw [List.countP_eq_zero]
      intro wz hwz
      rcases hg with hw | hr
      · rw [not_not] at hw
        rw [hw] at hwz
        exact absurd hwz (List.not_mem_nil wz)
      · rw [not_not] at hr
        simp only [decide_eq_true_eq]
        rintro ⟨rz, hrz, -⟩
        rw [hr] at hrz
        exact absurd hrz (List.not_mem_nil rz)

/-- Witness for C9, tracking the spec §8 scenario: a water zone at 2935 is
within 15 m of the reservoir bottom 2920 and fires; a water zone at 3050
is 130 m away and does not. -/
theorem C9_proximity_warnings_witness :
    (2935:ℝ) ∈ proximityWarnings [zB, zA2, zW2] ∧
    (3050:ℝ) ∉ proximityWarnings [zB, zA2, zW1] := by
  constructor
  · apply (C9_proximity_warnings [zB, zA2, zW2] 2935).1.mpr
    refine ⟨zW2, by simp [waterZones, zB, zA2, zW2], rfl, zA2,
      by simp [reservoirZones, zB, zA2, zW2], ?_⟩
    show |(2935:ℝ) - 2920| < 20
    rw [abs_lt]
    norm_num
  · intro h
    obtain ⟨wz, hwz, -, rz, hrz, hlt⟩ :=
      (C9_proximity_warnings [zB, zA2, zW1] 3050).1.mp h
    have hwl : waterZones [zB, zA2, zW1] = [zW1] := by
      simp [waterZones, zB, zA2, zW1]
    have hrl : reservoirZones [zB, zA2, zW1] = [zA2] := by
      simp [reservoirZones, zB, zA2, zW1]
    rw [hwl] at hwz
    rw [hrl] at hrz
    have hw : wz = zW1 := by simpa using hwz
    have hr : rz = zA2 := by simpa using hrz
    rw [hw, hr] at hlt
    have hlt2 : |(3050:ℝ) - 2920| < 20 := hlt
    rw [abs_lt] at hlt2
    norm_num at hlt2

/-- Counterexample to claim C10: with zX (porosity_effective 0.3,
saturation_water present but 0.0) listed before zY (0.2, 0.5), the claimed
score makes zX the unique maximiser (0.3 vs 0.1), but the coded
`(z.saturation_water or 1)` treats the present 0.0 as falsy, rates zX at
0.3 × (1−1) = 0 and selects zY. -/
theorem C10_counterexample :
    bestZone [zX, zY] = some zY ∧ claimZoneScore zY < claimZoneScore zX := by
  have hX : zoneScore zX = 0 := by
    norm_num [zoneScore, zX, pyOr]
  have hY : zoneScore zY = 0.1 := by
    norm_num [zoneScore, zY, pyOr]
  constructor
  · show some (pyMaxBy zoneScore zX [zY]) = some zY
    simp only [pyMaxBy]
    rw [if_pos (by rw [hX, hY]; norm_num)]
  · norm_num [claimZoneScore, zX, zY]

/-- Claim C10 (amended): the best-zone key is
`(porosity_effective or 0) × (1 − (saturation_water or 1))` with Python
`or`, i.e. a zone missing either value — or whose saturation_water is
present but 0.0 — scores 0, and a zone with both present and Sw ≠ 0
scores porosity_effective × (1 − Sw); the selected zone is the first in
iteration order attaining the maximal score (Python `max` keeps the
earlier element on ties). -/
theorem C10_best_zone (z : Petrophysics) (rest : List Petrophysics) :
    (∀ w : Petrophysics,
      (w.porosity_effective = none ∨ w.saturation_water = none ∨
        w.saturation_water = some 0) → zoneScore w = 0) ∧
    (∀ (w : Petrophysics) (p s : ℝ), w.porosity_effective = some p →
      w.saturation_water = some s → s ≠ 0 → zoneScore w = p * (1 - s)) ∧
    ∃ i, ∃ hi : i < (z :: rest).length,
      bestZone (z :: rest) = some ((z :: rest).get ⟨i, hi⟩) ∧
      (∀ j, ∀ hj : j < (z :: rest).length,
        zoneScore ((z :: rest).get ⟨j, hj⟩) ≤ zoneScore ((z :: rest).get ⟨i, hi⟩)) ∧
      (∀ j, ∀ hj : j < (z :: rest).length, j < i →
        zoneScore ((z :: rest).get ⟨j, hj⟩) < zoneScore ((z :: rest).get ⟨i, hi⟩)) := by
  refine ⟨?_, ?_, ?_⟩
  · intro w hw
    rcases hw with hp | hs | hs0
    · simp [zoneScore, hp, pyOr]
    · simp [zoneScore, hs, pyOr]
    · simp [zoneScore, hs0, pyOr]
  · intro w p s hp hs hs0
    simp only [zoneScore, hp, hs, pyOr]
    rw [if_pos hs0]
    rcases eq_or_ne p 0 with rfl | hp0
    · rw [if_neg (fun hc => hc rfl)]
    · rw [if_pos hp0]
  · obtain ⟨i, hi, heq, hmax, hfirst⟩ := pyMaxBy_first_max zoneScore z rest
    refine ⟨i, hi, ?_, hmax, hfirst⟩
    show some (pyMaxBy zoneScore z rest) = _
    rw [heq]

/-- Witness for C10 (amended): score evaluations through the theorem at
concrete zones — zC8w scores 0.25 × (1 − 0.3), zB (absent values) scores
0. -/
theorem C10_best_zone_witness :
    zoneScore zC8w = 0.25 * (1 - 0.3) ∧ zoneScore zB = 0 :=
  ⟨(C10_best_zone zA2 []).2.1 zC8w 0.25 0.3 rfl rfl (by norm_num),
   (C10_best_zone zA2 []).1 zB (Or.inl rfl)⟩

end
